import Mathlib

/-!
Verification development for the chat server's custom binary wire protocol
(`src/wire_protocols/custom_wire_protocol.py`) and the request handlers of
`src/chat_server.py`.

Conventions of the shallow embedding:
* Python `bytes` values are `List Nat` (each element in 0..255 where produced
  by the source's own encoders).
* A Python function that can raise is embedded as `Except PyErr _` (or
  `Option _` when only one failure mode exists); the error constructor names
  the Python exception class that the source raises at that point.
* Python dictionaries are insertion-ordered association lists; a dictionary
  indexing operation `d[k]` that can miss is a lookup returning
  `Except PyErr _` with `PyErr.keyError` on a miss.  Because the source
  indexes some integer-keyed dictionaries with string keys, dictionary keys
  are embedded as the sum type `PyKey` and `a == b` across the two key kinds
  is `false`, exactly as Python equality between `int` and `str`.
-/

namespace Chat

/-- Python exceptions raised (or swallowed) by the embedded code paths. -/
inductive PyErr
  | keyError
  | valueError (msg : String)
  | typeError (msg : String)
  | connectionError (msg : String)
  | nameError (msg : String)
  | exception (msg : String)
deriving DecidableEq

/-- A Python dictionary key: the source mixes `int`-keyed and `str`-keyed
dictionaries and (incorrectly) indexes an `int`-keyed one with a `str`.
Python `==` between an `int` and a `str` is `False`, which is what the
`BEq` instance below returns for mixed constructors. -/
inductive PyKey
  | intKey : Nat → PyKey
  | strKey : String → PyKey
deriving DecidableEq

instance : BEq PyKey where
  beq a b :=
    match a, b with
    | .intKey m, .intKey n => m == n
    | .strKey s, .strKey t => s == t
    | _, _ => false

/-- Python `d[k]` for an association-list dictionary: `KeyError` on a miss. -/
def pyDictGet {V : Type} (d : List (PyKey × V)) (k : PyKey) : Except PyErr V :=
  match List.lookup k d with
  | some v => Except.ok v
  | none => Except.error PyErr.keyError

/-- `varint_encode`, embedded with explicit fuel: the source's `while` loop
divides `number` by 128 each iteration, so `number` itself bounds the
iteration count and the fuel-exhausted branch is unreachable from
`varint_encode`. -/
def varint_encode_go (fuel : Nat) (number : Nat) : List Nat :=
  match fuel with
  | 0 => [number]
  | fuel + 1 =>
    if number ≥ 0x80 then
      ((number &&& 0x7F) ||| 0x80) :: varint_encode_go fuel (number >>> 7)
    else
      [number]

/-- Encode a number as a varint: 7 value bits per byte, high bit set on all
bytes but the last (`varint_encode` in the source). -/
def varint_encode (number : Nat) : List Nat :=
  varint_encode_go number number

/-- Loop body of `varint_decode`: scans bytes accumulating
`result |= (byte & 0x7F) << shift` and returns `(result, num_bytes)` at the
first byte whose high bit is clear.  `none` models the
`ValueError("Incomplete varint byte sequence.")` raised when the data runs
out first. -/
def varint_decode_go : List Nat → Nat → Nat → Nat → Option (Nat × Nat)
  | [], _, _, _ => none
  | byte :: rest, result, shift, num_bytes =>
    let result := result ||| ((byte &&& 0x7F) <<< shift)
    let num_bytes := num_bytes + 1
    if byte &&& 0x80 == 0 then some (result, num_bytes)
    else varint_decode_go rest result (shift + 7) num_bytes

/-- Decode a varint from a byte string, returning the value and the number of
bytes consumed (`varint_decode` in the source); `none` models the
incomplete-varint `ValueError`. -/
def varint_decode (data : List Nat) : Option (Nat × Nat) :=
  varint_decode_go data 0 0 0

/-- The source's `field_names` dictionary (string keys, used by the
string-field branch of `WireProtocol.send`). -/
def field_names : List (PyKey × Nat) :=
  [(.strKey "username", 0), (.strKey "hashed_password", 1),
   (.strKey "session_status", 2), (.strKey "messages", 3),
   (.strKey "message_id", 4), (.strKey "recipient", 5),
   (.strKey "sender", 6), (.strKey "message", 7), (.strKey "read", 8),
   (.strKey "timestamp", 9), (.strKey "password", 10)]

/-- The source's `field_names_reverse_mapping` dictionary.  Its keys are the
integers 0..12; the integer and list branches of `WireProtocol.send`
nevertheless index it with a field *name* (a string). -/
def field_names_reverse_mapping : List (PyKey × String) :=
  [(.intKey 0, "username"), (.intKey 1, "hashed_password"),
   (.intKey 2, "session_status"), (.intKey 3, "messages"),
   (.intKey 4, "message_id"), (.intKey 5, "recipient"),
   (.intKey 6, "sender"), (.intKey 7, "message"), (.intKey 8, "read"),
   (.intKey 9, "timestamp"), (.intKey 10, "number_of_messages"),
   (.intKey 11, "message_ids"), (.intKey 12, "status")]

/-- The source's `op_code_to_number` dictionary literal lists the key
"refresh_request" twice (value 12, then 16); in a Python `dict` literal the
later value overwrites the earlier one, so the final dictionary maps
"refresh_request" to 16 at its original position. -/
def op_code_to_number : List (PyKey × Nat) :=
  [(.strKey "create_account_username", 0), (.strKey "create_account_password", 1),
   (.strKey "login", 2), (.strKey "retrieve_unread_count", 3),
   (.strKey "send_message", 4), (.strKey "read_message", 5),
   (.strKey "load_unread_messages", 6), (.strKey "load_read_messages", 7),
   (.strKey "delete_messages", 8), (.strKey "delete_account", 9),
   (.strKey "list_accounts", 10), (.strKey "quit", 11),
   (.strKey "refresh_request", 16), (.strKey "error", 13),
   (.strKey "exists", 14), (.strKey "ok", 15)]

/-- `pack_two_nibbles`: `(type_value << 4) | field_name_index` as a single
byte, `ValueError` if either nibble exceeds 15. -/
def pack_two_nibbles (type_value field_name_index : Nat) : Except PyErr (List Nat) :=
  if type_value ≤ 15 && field_name_index ≤ 15 then
    Except.ok [(type_value <<< 4) ||| field_name_index]
  else
    Except.error (PyErr.valueError "Both numbers must be between 0 and 15 (inclusive).")

/-- `unpack_two_nibbles` on a single byte (the source's one-byte length check
always passes at its call site inside `receive`). -/
def unpack_two_nibbles (byte_value : Nat) : Nat × Nat :=
  ((byte_value >>> 4) &&& 0x0F, byte_value &&& 0x0F)

/-- A value of a payload field of an outgoing message.  A Python `str` is
embedded as its UTF-8 byte list, since the codec touches strings only
through `encode("utf-8")`. -/
inductive FieldValue
  | vint : Nat → FieldValue
  | vstr : List Nat → FieldValue
  | vlist : List (List Nat) → FieldValue
deriving DecidableEq

/-- Tests whether a field value takes the integer or list-of-strings branch
of `WireProtocol.send`. -/
def isIntOrList : FieldValue → Bool
  | .vint _ => true
  | .vstr _ => false
  | .vlist _ => true

/-- `get_fields`: drop the `protocol_version` and `op_code` keys from a
payload dictionary. -/
def get_fields (payload : List (String × FieldValue)) : List (String × FieldValue) :=
  payload.filter (fun kv => !(kv.1 == "protocol_version" || kv.1 == "op_code"))

/-- Encoding of one payload field inside `WireProtocol.send`.

The integer branch evaluates `field_names_reverse_mapping[field]` with the
field *name* (a `str`) as key although that dictionary is keyed by `int`,
so the lookup raises `KeyError` unconditionally; had it returned, its value
would be a string and the following `pack_two_nibbles(0, value)` comparison
would raise `TypeError`, which is the embedded success-continuation.  The
list-of-strings branch indexes the same dictionary the same way. -/
def encode_field (field : String) (value : FieldValue) : Except PyErr (List Nat) :=
  match value with
  | .vint _ => do
    let _idx ← pyDictGet field_names_reverse_mapping (PyKey.strKey field)
    Except.error (PyErr.typeError "unorderable: int and str in pack_two_nibbles")
  | .vstr encoded_str => do
    let idx ← pyDictGet field_names (PyKey.strKey field)
    let tag ← pack_two_nibbles 1 idx
    Except.ok (tag ++ varint_encode encoded_str.length ++ encoded_str)
  | .vlist _items => do
    let _idx ← pyDictGet field_names_reverse_mapping (PyKey.strKey field)
    Except.error (PyErr.typeError "unorderable: int and str in pack_two_nibbles")

/-- The field-encoding loop of `WireProtocol.send`: concatenates the field
records in payload insertion order; the first exception aborts the whole
`send` before anything reaches the socket. -/
def encode_fields : List (String × FieldValue) → Except PyErr (List Nat)
  | [] => Except.ok []
  | (field, value) :: rest => do
    let record ← encode_field field value
    let records ← encode_fields rest
    Except.ok (record ++ records)

/-- An outgoing message handed to `WireProtocol.send`: a string op-code name
and a payload dictionary. -/
structure OutMessage where
  op_code : String
  payload : List (String × FieldValue)
deriving DecidableEq

/-- `WireProtocol.send`: magic byte 29, op-code varint, payload-length varint,
field records.  `Except.ok bytes` is the byte string passed to
`sock.sendall`, which is the very last statement of `send`; an
`Except.error` therefore means the exception propagated before any byte was
written to the socket. -/
def send (message : OutMessage) : Except PyErr (List Nat) := do
  let op_code_number ← pyDictGet op_code_to_number (PyKey.strKey message.op_code)
  let op_code := varint_encode op_code_number
  let field_data ← encode_fields (get_fields message.payload)
  Except.ok ([29] ++ op_code ++ varint_encode field_data.length ++ field_data)

/-- `WireProtocol.recv_exact` against a finite byte stream whose sender has
closed the connection: if at least `n` bytes remain they are returned with
the rest of the stream, otherwise `recv` eventually returns the empty chunk
and `recv_exact` raises `ConnectionError`, having consumed and discarded
everything that was available. -/
def recv_exact (n : Nat) (s : List Nat) : Except PyErr (List Nat) × List Nat :=
  if s.length < n then
    (Except.error (PyErr.connectionError "Socket closed while trying to read data."), [])
  else
    (Except.ok (s.take n), s.drop n)

/-- Outcome of the field-parsing `while` loop inside `WireProtocol.receive`:
it reaches `i >= len(field_data)`, or raises an exception (which the
enclosing `except` swallows), or never terminates. -/
inductive ParseOutcome
  | done
  | errorCaught : PyErr → ParseOutcome
  | hang
deriving DecidableEq

/-- Inner `for` loop of the list branch of the parser: decodes `count` items,
each a varint byte-length followed by that many bytes (Python slicing never
fails, and the swallowed `UnicodeDecodeError` of `.decode("utf-8")` is
observationally identical to success here, because the loop's results are
discarded by `receive`).  Returns the new index `i`. -/
def parse_list_items (field_data : List Nat) : Nat → Nat → Except PyErr Nat
  | i, 0 => Except.ok i
  | i, count + 1 =>
    match varint_decode (field_data.drop i) with
    | none => Except.error (PyErr.valueError "Incomplete varint byte sequence.")
    | some (str_len, num_bytes) =>
      parse_list_items field_data (i + num_bytes + str_len) count

/-- State-machine body of the parser's `while i < len(field_data)` loop.

The loop variables `type_value`/`field_name_index` (set together from the
tag byte) and `field_length` are never reset after a value is decoded, so
the tag state persists for the rest of the loop exactly as in the source.
Every iteration that stays in the loop either advances `i` by at least one
byte or leaves the entire state unchanged; in the latter case the source
loops forever, which the fuel-exhausted branch reports as `hang`
(`parse_fields` supplies more fuel than any terminating run can consume). -/
def parse_fields_go (field_data : List Nat) :
    Nat → Nat → Option (Nat × Nat) → Option Nat → ParseOutcome
  | 0, _, _, _ => ParseOutcome.hang
  | fuel + 1, i, tag_state, field_length =>
    if i < field_data.length then
      match tag_state with
      | none =>
        parse_fields_go field_data fuel (i + 1)
          (some (unpack_two_nibbles (field_data.getD i 0))) field_length
      | some (type_value, field_name_index) =>
        match field_length with
        | none =>
          match varint_decode (field_data.drop i) with
          | none => ParseOutcome.errorCaught (PyErr.valueError "Incomplete varint byte sequence.")
          | some (fl, num_bytes) =>
            parse_fields_go field_data fuel (i + num_bytes)
              (some (type_value, field_name_index)) (some fl)
        | some fl =>
          if type_value == 0 then
            match varint_decode (field_data.drop i) with
            | none => ParseOutcome.errorCaught (PyErr.valueError "Incomplete varint byte sequence.")
            | some (_, num_bytes) =>
              parse_fields_go field_data fuel (i + num_bytes)
                (some (type_value, field_name_index)) (some fl)
          else if type_value == 1 then
            parse_fields_go field_data fuel (i + fl)
              (some (type_value, field_name_index)) (some fl)
          else if type_value == 2 then
            match parse_list_items field_data i fl with
            | Except.error e => ParseOutcome.errorCaught e
            | Except.ok i2 =>
              parse_fields_go field_data fuel i2
                (some (type_value, field_name_index)) (some fl)
          else
            ParseOutcome.errorCaught (PyErr.exception "Invalid type value")
    else
      ParseOutcome.done

/-- The parser loop of `receive`, started on the raw field data. -/
def parse_fields (field_data : List Nat) : ParseOutcome :=
  parse_fields_go field_data (field_data.length + 2) 0 none none

/-- The dictionary `WireProtocol.receive` actually returns: the numeric
op-code, the declared payload length, and a constant status string — the
parsed field values are discarded. -/
structure ReceiveResult where
  op_code : Nat
  payload_length : Nat
  status : String
deriving DecidableEq

/-- Observable outcome of a call to `WireProtocol.receive`: a returned
dictionary, an exception propagated to the caller, or no return at all
(the parser loop spins forever). -/
inductive RecvOutcome
  | ret : ReceiveResult → RecvOutcome
  | raise : PyErr → RecvOutcome
  | hang
deriving DecidableEq

/-- `WireProtocol.receive` against a finite byte stream.

Control flow mirrors the source's exception handling:
* the magic-byte `recv_exact(1)` sits outside every `try`, so its
  `ConnectionError` propagates;
* an invalid magic byte raises `ConnectionError` inside a `try` whose
  handler only logs, so parsing continues whatever the magic byte was;
* the op-code and payload-length reads each fetch exactly one byte; a read
  failure or an incomplete-varint `ValueError` is swallowed by the big
  `except`, after which the final `return` references the never-assigned
  local (`op_code` resp. `payload_length`) and raises `NameError`;
* once both are assigned, a failing `recv_exact(payload_length)` and every
  exception of the field-parsing loop are swallowed and the dictionary
  `{op_code, payload_length, status: "received"}` is returned anyway. -/
def receive (s : List Nat) : RecvOutcome :=
  match recv_exact 1 s with
  | (Except.error e, _) => RecvOutcome.raise e
  | (Except.ok _magic_number_candidate, s1) =>
    match recv_exact 1 s1 with
    | (Except.error _, _) => RecvOutcome.raise (PyErr.nameError "op_code")
    | (Except.ok op_code_bytes, s2) =>
      match varint_decode op_code_bytes with
      | none => RecvOutcome.raise (PyErr.nameError "op_code")
      | some (op_code, _) =>
        match recv_exact 1 s2 with
        | (Except.error _, _) => RecvOutcome.raise (PyErr.nameError "payload_length")
        | (Except.ok payload_length_bytes, s3) =>
          match varint_decode payload_length_bytes with
          | none => RecvOutcome.raise (PyErr.nameError "payload_length")
          | some (payload_length, _) =>
            match recv_exact payload_length s3 with
            | (Except.error _, _) =>
              RecvOutcome.ret
                { op_code := op_code, payload_length := payload_length, status := "received" }
            | (Except.ok field_data, _) =>
              match parse_fields field_data with
              | ParseOutcome.hang => RecvOutcome.hang
              | _ =>
                RecvOutcome.ret
                  { op_code := op_code, payload_length := payload_length, status := "received" }

/-- A Python value as compared by the dispatcher: `client_handler` takes the
`op_code` entry of the received dictionary and compares it with `==`
against string literals. -/
inductive PyVal
  | pint : Nat → PyVal
  | pstr : String → PyVal
deriving DecidableEq

/-- Python `==` restricted to the values the dispatcher compares: equality
between an `int` and a `str` is `False`. -/
def pyEq : PyVal → PyVal → Bool
  | .pint m, .pint n => m == n
  | .pstr s, .pstr t => s == t
  | .pint _, .pstr _ => false
  | .pstr _, .pint _ => false

/-- Result of the `if/elif` dispatch chain of `client_handler`: either the
named handler is invoked, or control falls through to the final `else`
branch that sends the "Unknown op_code" error. -/
inductive DispatchResult
  | handled : String → DispatchResult
  | unknown : DispatchResult
deriving DecidableEq

/-- The dispatch chain of `client_handler`, comparing the received `op_code`
value against the twelve request op-code names. -/
def dispatch_op (op_code : PyVal) : DispatchResult :=
  if pyEq op_code (PyVal.pstr "create_account_username") then
    DispatchResult.handled "handle_account_creation_username"
  else if pyEq op_code (PyVal.pstr "create_account_password") then
    DispatchResult.handled "handle_account_creation_password"
  else if pyEq op_code (PyVal.pstr "login") then
    DispatchResult.handled "handle_login"
  else if pyEq op_code (PyVal.pstr "retrieve_unread_count") then
    DispatchResult.handled "handle_retrieve_unread_count"
  else if pyEq op_code (PyVal.pstr "send_message") then
    DispatchResult.handled "handle_send_message"
  else if pyEq op_code (PyVal.pstr "read_message") then
    DispatchResult.handled "handle_read_message"
  else if pyEq op_code (PyVal.pstr "load_unread_messages") then
    DispatchResult.handled "handle_load_unread_messages"
  else if pyEq op_code (PyVal.pstr "load_read_messages") then
    DispatchResult.handled "handle_load_read_messages"
  else if pyEq op_code (PyVal.pstr "delete_messages") then
    DispatchResult.handled "handle_delete_messages"
  else if pyEq op_code (PyVal.pstr "delete_account") then
    DispatchResult.handled "handle_delete_account"
  else if pyEq op_code (PyVal.pstr "list_accounts") then
    DispatchResult.handled "handle_list_accounts"
  else if pyEq op_code (PyVal.pstr "quit") then
    DispatchResult.handled "handle_quit"
  else
    DispatchResult.unknown

/-- A value appearing in a handler's response payload dictionary
(`chat_server.py` builds responses out of strings, integers and lists of
strings). -/
inductive RespVal
  | rstr : String → RespVal
  | rint : Nat → RespVal
  | rlist : List String → RespVal
deriving DecidableEq

/-- A response dictionary as handed to `server_send`. -/
structure Response where
  op_code : String
  payload : List (String × RespVal)
deriving DecidableEq

/-- `send_error`: an `error` response carrying a human-readable message. -/
def send_error_resp (message : String) : Response :=
  { op_code := "error", payload := [("message", RespVal.rstr message)] }

/-- An `ok` response whose payload is a single message string. -/
def ok_msg_resp (message : String) : Response :=
  { op_code := "ok", payload := [("message", RespVal.rstr message)] }

/-- A stored message (`create_message_object` dictionary). -/
structure Message where
  message_id : String
  recipient : String
  sender : String
  message : String
  read : Bool
  timestamp : String
deriving DecidableEq

/-- A `user_db` record: password hash, session status ("online"/"offline")
and the mailbox in arrival order. -/
structure UserRecord where
  hashed_password : String
  session_status : String
  messages : List Message
deriving DecidableEq

/-- The server's shared mutable state: the `user_db` dictionary and the
ephemeral `active_connections` dictionary mapping usernames to their live
connection (connections are identified by an opaque `Nat` handle).  The
`shelve` persistence behind `save_database` is an external collaborator and
is not part of the observable state. -/
structure ServerState where
  user_db : List (String × UserRecord)
  active_connections : List (String × Nat)
deriving DecidableEq

/-- Python `d[k] = v` on a string-keyed dictionary: replace the value at the
existing key, else append the new binding (insertion order preserved). -/
def dictSet {V : Type} : List (String × V) → String → V → List (String × V)
  | [], k, v => [(k, v)]
  | (k', v') :: rest, k, v =>
    if k' == k then (k', v) :: rest else (k', v') :: dictSet rest k v

/-- Python `del d[k]` on a string-keyed dictionary. -/
def dictDel {V : Type} : List (String × V) → String → List (String × V)
  | [], _ => []
  | (k', v') :: rest, k =>
    if k' == k then rest else (k', v') :: dictDel rest k

/-- `hash_password` computes the SHA-256 hex digest of `username + password`.
The digest itself comes from `hashlib` (an external collaborator); it is
embedded as an executable tagging of the same concatenation, which the
handlers only ever compare for string equality. -/
def hash_password (username : String) (password : String) : String :=
  "sha256-hex-of:" ++ username ++ password

/-- `create_message_object`: a fresh message with `read = False`.  The
`uuid.uuid4()` message id and `datetime.now().isoformat()` timestamp are
nondeterministic inputs and are passed in as oracle parameters. -/
def create_message_object (sender recipient message : String)
    (new_uuid now_iso : String) : Message :=
  { message_id := new_uuid, recipient := recipient, sender := sender,
    message := message, read := false, timestamp := now_iso }

/-- The result of running one handler: the new server state and the list of
`(connection, response)` pairs passed to `server_send`, in send order. -/
abbrev HandlerResult := ServerState × List (Nat × Response)

/-- `handle_account_creation_username` (phase 1 of account creation): pure
existence check, sends `exists` or `ok`, never mutates. -/
def handle_account_creation_username (st : ServerState) (conn : Nat)
    (username : String) : HandlerResult :=
  if (List.lookup username st.user_db).isSome then
    (st, [(conn, { op_code := "exists",
                   payload := [("message", RespVal.rstr "Username already exists. Please provide password.")] })])
  else
    (st, [(conn, ok_msg_resp "Username available for creation.")])

/-- `handle_account_creation_password` (phase 2): creates the record with
`session_status = "offline"` when the username is still free, else sends
the username-taken error. -/
def handle_account_creation_password (st : ServerState) (conn : Nat)
    (username password : String) : HandlerResult :=
  if (List.lookup username st.user_db).isSome then
    (st, [(conn, send_error_resp "Account creation failed. Username already in use.")])
  else
    ({ st with
       user_db := dictSet st.user_db username
         { hashed_password := hash_password username password,
           session_status := "offline", messages := [] } },
     [(conn, ok_msg_resp "Account created successfully.")])

/-- `handle_login`: on a hash match marks the user online, registers the
connection in `active_connections` and sends `ok`; a wrong password and an
unknown username send *different* error messages. -/
def handle_login (st : ServerState) (conn : Nat)
    (username password : String) : HandlerResult :=
  match List.lookup username st.user_db with
  | some record =>
    if record.hashed_password == hash_password username password then
      ({ user_db := dictSet st.user_db username { record with session_status := "online" },
         active_connections := dictSet st.active_connections username conn },
       [(conn, ok_msg_resp "Login successful.")])
    else
      (st, [(conn, send_error_resp "Incorrect password.")])
  | none =>
    (st, [(conn, send_error_resp "Username does not exist.")])

/-- `handle_send_message`: validates that the sender exists and is online and
that the recipient exists; stores the message (flipped to `read = True`
when the recipient is online); always acknowledges to the sender; then, if
the recipient is online and registered in `active_connections`, pushes a
`refresh_request` to the recipient's connection. -/
def handle_send_message (st : ServerState) (conn : Nat)
    (sender recipient message_text : String)
    (new_uuid now_iso : String) : HandlerResult :=
  match List.lookup sender st.user_db with
  | none => (st, [(conn, send_error_resp "Sender is not online or does not exist.")])
  | some sender_record =>
    if sender_record.session_status != "online" then
      (st, [(conn, send_error_resp "Sender is not online or does not exist.")])
    else
      match List.lookup recipient st.user_db with
      | none =>
        (st, [(conn, send_error_resp
          ("Recipient \x27" ++ recipient ++ "\x27 does not exist."))])
      | some recipient_record =>
        let message_obj := create_message_object sender recipient message_text new_uuid now_iso
        let message_obj :=
          if recipient_record.session_status == "online" then
            { message_obj with read := true }
          else message_obj
        let st' : ServerState :=
          { st with
            user_db := dictSet st.user_db recipient
              { recipient_record with messages := recipient_record.messages ++ [message_obj] } }
        let ack : Nat × Response :=
          (conn, { op_code := "ok",
                   payload := [("message", RespVal.rstr "Message sent successfully."),
                               ("message_id", RespVal.rstr new_uuid)] })
        let pushes : List (Nat × Response) :=
          match List.lookup recipient st'.user_db with
          | some r2 =>
            if r2.session_status == "online" then
              match List.lookup recipient st.active_connections with
              | some recipient_wire =>
                [(recipient_wire,
                  { op_code := "refresh_request",
                    payload := [("message", RespVal.rstr "You have a new message. Please refresh.")] })]
              | none => []
            else []
          | none => []
        (st', ack :: pushes)

/-- One pass of the loop of `handle_delete_messages`, building the deleted-id
list and the remaining mailbox in traversal order. -/
def partition_messages (msgs : List Message) (message_ids : List String) :
    List String × List Message :=
  match msgs with
  | [] => ([], [])
  | m :: rest =>
    let (deleted, remaining) := partition_messages rest message_ids
    if message_ids.contains m.message_id then
      (m.message_id :: deleted, remaining)
    else
      (deleted, m :: remaining)

/-- `handle_delete_messages`: requires the caller to exist and be online;
removes exactly the mailbox messages whose id occurs in `message_ids` and
answers `ok` with the list of ids actually deleted. -/
def handle_delete_messages (st : ServerState) (conn : Nat)
    (username : String) (message_ids : List String) : HandlerResult :=
  match List.lookup username st.user_db with
  | none => (st, [(conn, send_error_resp "User not online or does not exist.")])
  | some record =>
    if record.session_status != "online" then
      (st, [(conn, send_error_resp "User not online or does not exist.")])
    else
      let (deleted, remaining) := partition_messages record.messages message_ids
      ({ st with user_db := dictSet st.user_db username { record with messages := remaining } },
       [(conn, { op_code := "ok",
                 payload := [("deleted_message_ids", RespVal.rlist deleted)] })])

/-- `handle_delete_account`: deletes the `user_db` record (mailbox included)
and answers `ok`; the function never touches `active_connections`.  An
unknown username gets the user-not-found error. -/
def handle_delete_account (st : ServerState) (conn : Nat)
    (username : String) : HandlerResult :=
  if (List.lookup username st.user_db).isSome then
    ({ st with user_db := dictDel st.user_db username },
     [(conn, ok_msg_resp ("Account \x27" ++ username ++ "\x27 deleted successfully."))])
  else
    (st, [(conn, send_error_resp "User account not found.")])

/-! Concrete example inputs used when evaluating the embedded code. -/

/-- A login frame with username "aa" (UTF-8 `[97, 97]`) and hashed password
"hh" (`[104, 104]`). -/
def login_frame_aa : OutMessage :=
  { op_code := "login",
    payload := [("username", FieldValue.vstr [97, 97]),
                ("hashed_password", FieldValue.vstr [104, 104])] }

/-- A login frame identical to `login_frame_aa` except for username "ab". -/
def login_frame_ab : OutMessage :=
  { op_code := "login",
    payload := [("username", FieldValue.vstr [97, 98]),
                ("hashed_password", FieldValue.vstr [104, 104])] }

/-- A login frame with username "bob" (`[98, 111, 98]`) and hashed password
"hh". -/
def login_frame_bob : OutMessage :=
  { op_code := "login",
    payload := [("username", FieldValue.vstr [98, 111, 98]),
                ("hashed_password", FieldValue.vstr [104, 104])] }

/-- A `create_account_username` request frame for username "bob". -/
def cre_username_frame : OutMessage :=
  { op_code := "create_account_username",
    payload := [("username", FieldValue.vstr [98, 111, 98])] }

/-- An `ok` response message whose payload carries the integer-valued
`unread_count` field (as `handle_retrieve_unread_count` builds). -/
def ok_unread_frame : OutMessage :=
  { op_code := "ok",
    payload := [("message", FieldValue.vstr [104]),
                ("unread_count", FieldValue.vint 3)] }

/-- Alice's stored record with the hash of password "pw", currently offline. -/
def alice_offline_record : UserRecord :=
  { hashed_password := hash_password "alice" "pw",
    session_status := "offline", messages := [] }

/-- A state holding only Alice's account, with no live connections. -/
def st_alice : ServerState :=
  { user_db := [("alice", alice_offline_record)], active_connections := [] }

/-- Alice's record while she is online. -/
def alice_online_record : UserRecord :=
  { hashed_password := hash_password "alice" "pw",
    session_status := "online", messages := [] }

/-- Bob's record while he is offline. -/
def bob_offline_record : UserRecord :=
  { hashed_password := hash_password "bob" "pw",
    session_status := "offline", messages := [] }

/-- A state with Alice online (connection 3) and Bob offline. -/
def st_two_users : ServerState :=
  { user_db := [("alice", alice_online_record), ("bob", bob_offline_record)],
    active_connections := [("alice", 3)] }

/-- Bob's record while he is online. -/
def bob_online_record : UserRecord :=
  { hashed_password := hash_password "bob" "pw",
    session_status := "online", messages := [] }

/-- A state with Bob online and registered in `active_connections` under
connection handle 7. -/
def st_bob_conn : ServerState :=
  { user_db := [("bob", bob_online_record)], active_connections := [("bob", 7)] }

/-- A stored message with id "m1" in Bob's mailbox. -/
def msg_hi : Message :=
  { message_id := "m1", recipient := "bob", sender := "alice",
    message := "hi", read := false, timestamp := "t0" }

/-- Bob's record, online, with `msg_hi` in the mailbox. -/
def bob_mailbox_record : UserRecord :=
  { hashed_password := hash_password "bob" "pw",
    session_status := "online", messages := [msg_hi] }

/-- A state with Bob online and one message in his mailbox. -/
def st_bob_mailbox : ServerState :=
  { user_db := [("bob", bob_mailbox_record)], active_connections := [] }

/-- The empty server state (fresh start, no accounts). -/
def st_empty : ServerState :=
  { user_db := [], active_connections := [] }

/-- The message stored by `handle_send_message`, with its `read` flag already
resolved against the recipient's session status. -/
def delivered_message (sender recipient text uuid ts : String) (read_flag : Bool) : Message :=
  { message_id := uuid, recipient := recipient, sender := sender,
    message := text, read := read_flag, timestamp := ts }

/-- The acknowledgment `handle_send_message` always sends back to the sender. -/
def ok_send_ack (uuid : String) : Response :=
  { op_code := "ok",
    payload := [("message", RespVal.rstr "Message sent successfully."),
                ("message_id", RespVal.rstr uuid)] }

/-- The `refresh_request` push frame sent to an online recipient's
registered connection. -/
def refresh_resp : Response :=
  { op_code := "refresh_request",
    payload := [("message", RespVal.rstr "You have a new message. Please refresh.")] }

/-- The `ok` response of `handle_delete_messages`, carrying the ids actually
deleted. -/
def ok_deleted_resp (deleted : List String) : Response :=
  { op_code := "ok", payload := [("deleted_message_ids", RespVal.rlist deleted)] }

/-- The record that `handle_account_creation_password` stores for a fresh
account: the hash of `(u, p)`, offline, with an empty mailbox. -/
def created_record (u p : String) : UserRecord :=
  { hashed_password := hash_password u p,
    session_status := "offline", messages := [] }

/-! Helper lemmas about the varint codec. -/

theorem or_two_pow_mul_eq_add (k a b : Nat) (h : a < 2 ^ k) :
    a ||| 2 ^ k * b = a + 2 ^ k * b := by
  induction k generalizing a b with
  | zero =>
    have ha : a = 0 := by
      have : (2 : Nat) ^ 0 = 1 := pow_zero 2
      omega
    subst ha
    simp
  | succ k ih =>
    have hb : 2 ^ (k + 1) * b = 2 * (2 ^ k * b) := by ring
    have hdiv2 : a / 2 < 2 ^ k := by
      have hp : (2 : Nat) ^ (k + 1) = 2 ^ k * 2 := pow_succ 2 k
      omega
    have hdiv : (a ||| 2 ^ (k + 1) * b) / 2 = a / 2 + 2 ^ k * b := by
      rw [Nat.or_div_two, hb, Nat.mul_div_cancel_left _ (by norm_num : 0 < 2)]
      exact ih (a / 2) b hdiv2
    have hmod : (a ||| 2 ^ (k + 1) * b) % 2 = a % 2 := by
      have hiff := @Nat.or_mod_two_eq_one a (2 ^ (k + 1) * b)
      have heven : 2 ^ (k + 1) * b % 2 = 0 := by omega
      omega
    have hL := Nat.div_add_mod (a ||| 2 ^ (k + 1) * b) 2
    have ha := Nat.div_add_mod a 2
    omega

theorem land_127 (n : Nat) : n &&& 127 = n % 128 := by
  have h := Nat.and_pow_two_sub_one_eq_mod n 7
  norm_num at h
  exact h

theorem land_128_of_lt {n : Nat} (h : n < 128) : n &&& 128 = 0 := by
  have h7 : n < 2 ^ 7 := by
    have : (2 : Nat) ^ 7 = 128 := by norm_num
    omega
  have hb : n.testBit 7 = false := Nat.testBit_lt_two_pow h7
  have h1 : n &&& 2 ^ 7 = (n.testBit 7).toNat * 2 ^ 7 := Nat.and_two_pow n 7
  rw [hb] at h1
  norm_num at h1
  exact h1

theorem land_128_of_byte (n : Nat) : (n % 128 + 128) &&& 128 = 128 := by
  have h128 : (2 : Nat) ^ 7 = 128 := by norm_num
  have hd : (n % 128 + 128) / 2 ^ 7 % 2 = 1 := by
    rw [h128]
    omega
  have hb : (n % 128 + 128).testBit 7 = true := by
    rw [Nat.testBit_to_div_mod]
    simp [hd]
  have h1 : (n % 128 + 128) &&& 2 ^ 7 = ((n % 128 + 128).testBit 7).toNat * 2 ^ 7 :=
    Nat.and_two_pow _ 7
  rw [hb] at h1
  norm_num at h1
  exact h1

theorem varint_encode_go_of_lt {fuel n : Nat} (h : n < 128) :
    varint_encode_go fuel n = [n] := by
  cases fuel with
  | zero => rfl
  | succ fuel =>
    simp only [varint_encode_go]
    rw [if_neg (by omega)]

theorem varint_encode_go_of_ge {fuel n : Nat} (h : 128 ≤ n) :
    varint_encode_go (fuel + 1) n =
      ((n &&& 0x7F) ||| 0x80) :: varint_encode_go fuel (n >>> 7) := by
  simp only [varint_encode_go]
  rw [if_pos (by omega)]

theorem high_byte_eq (n : Nat) : (n &&& 0x7F) ||| 0x80 = n % 128 + 128 := by
  rw [land_127]
  have h := or_two_pow_mul_eq_add 7 (n % 128) 1
    (by
      have : (2 : Nat) ^ 7 = 128 := by norm_num
      omega)
  norm_num at h
  exact h

theorem varint_decode_go_encode_go :
    ∀ (fuel n result shift cnt : Nat), n ≤ fuel → result < 2 ^ shift →
      varint_decode_go (varint_encode_go fuel n) result shift cnt =
        some (result ||| n <<< shift, cnt + (varint_encode_go fuel n).length) := by
  intro fuel
  induction fuel with
  | zero =>
    intro n result shift cnt hn hr
    have h0 : n = 0 := by omega
    subst h0
    simp [varint_encode_go, varint_decode_go]
  | succ fuel ih =>
    intro n result shift cnt hn hr
    by_cases h : n < 128
    · rw [varint_encode_go_of_lt h]
      simp [varint_decode_go, land_127, land_128_of_lt h, Nat.mod_eq_of_lt h]
    · push_neg at h
      rw [varint_encode_go_of_ge h, high_byte_eq]
      have hstep : varint_decode_go ((n % 128 + 128) :: varint_encode_go fuel (n >>> 7))
          result shift cnt =
          varint_decode_go (varint_encode_go fuel (n >>> 7))
            (result ||| (n % 128) <<< shift) (shift + 7) (cnt + 1) := by
        simp only [varint_decode_go]
        rw [land_127, land_128_of_byte]
        norm_num
      rw [hstep]
      have hp : (2 : Nat) ^ (shift + 7) = 2 ^ shift * 128 := by
        rw [pow_add]
        norm_num
      have hres : result ||| (n % 128) <<< shift = result + n % 128 * 2 ^ shift := by
        rw [Nat.shiftLeft_eq, Nat.mul_comm (n % 128) (2 ^ shift),
          or_two_pow_mul_eq_add shift result (n % 128) hr,
          Nat.mul_comm (2 ^ shift) (n % 128)]
      have hbound : result ||| (n % 128) <<< shift < 2 ^ (shift + 7) := by
        rw [hres]
        have hm : n % 128 < 128 := Nat.mod_lt n (by norm_num)
        have ht : n % 128 * 2 ^ shift ≤ 127 * 2 ^ shift :=
          Nat.mul_le_mul_right _ (by omega)
        omega
      have hdivfuel : n >>> 7 ≤ fuel := by
        rw [Nat.shiftRight_eq_div_pow]
        have : (2 : Nat) ^ 7 = 128 := by norm_num
        omega
      rw [ih (n >>> 7) _ (shift + 7) (cnt + 1) hdivfuel hbound]
      congr 1
      congr 1
      · -- value: (result ||| r <<< shift) ||| q <<< (shift + 7) = result ||| n <<< shift
        rw [hres, Nat.shiftRight_eq_div_pow]
        have h2 : (2 : Nat) ^ 7 = 128 := by norm_num
        rw [h2, Nat.shiftLeft_eq, Nat.mul_comm (n / 128) (2 ^ (shift + 7)),
          or_two_pow_mul_eq_add (shift + 7) _ (n / 128) (by rw [← hres]; exact hbound),
          Nat.shiftLeft_eq,
          Nat.mul_comm n (2 ^ shift),
          or_two_pow_mul_eq_add shift result n hr]
        have hn' : n = 128 * (n / 128) + n % 128 := (Nat.div_add_mod n 128).symm
        rw [hp]
        conv_rhs => rw [hn']
        ring
      · -- length
        simp [List.length_cons]
        omega

theorem varint_round (n : Nat) :
    varint_decode (varint_encode n) = some (n, (varint_encode n).length) := by
  unfold varint_decode varint_encode
  rw [varint_decode_go_encode_go n n 0 0 0 le_rfl (by norm_num)]
  simp

theorem varint_decode_go_none :
    ∀ (data : List Nat) (r s c : Nat), (∀ b ∈ data, b &&& 0x80 ≠ 0) →
      varint_decode_go data r s c = none := by
  intro data
  induction data with
  | nil => intro r s c _; rfl
  | cons b rest ih =>
    intro r s c h
    have hb : b &&& 0x80 ≠ 0 := h b (List.mem_cons_self b rest)
    simp only [varint_decode_go]
    rw [if_neg (by simpa using hb)]
    exact ih _ _ _ (fun x hx => h x (List.mem_cons_of_mem b hx))

theorem varint_encode_of_lt {n : Nat} (h : n < 128) : varint_encode n = [n] :=
  varint_encode_go_of_lt h

theorem varint_decode_single {n : Nat} (h : n < 128) :
    varint_decode [n] = some (n, 1) := by
  simp [varint_decode, varint_decode_go, land_128_of_lt h, land_127, Nat.mod_eq_of_lt h]

theorem recv_exact_cons (a : Nat) (l : List Nat) :
    recv_exact 1 (a :: l) = (Except.ok [a], l) := by
  simp [recv_exact]

theorem recv_exact_all (l : List Nat) :
    recv_exact l.length l = (Except.ok l, []) := by
  simp [recv_exact]

/-- Behaviour of `receive` on a well-formed frame whose op-code and payload
length each fit in a single varint byte and whose field data does not drive
the parser loop into its non-terminating state. -/
theorem receive_of_frame (opn : Nat) (fd : List Nat) (h1 : opn < 128)
    (h2 : fd.length < 128) (h3 : parse_fields fd ≠ ParseOutcome.hang) :
    receive ([29] ++ varint_encode opn ++ varint_encode fd.length ++ fd) =
      RecvOutcome.ret { op_code := opn, payload_length := fd.length, status := "received" } := by
  rw [varint_encode_of_lt h1, varint_encode_of_lt h2]
  show receive (29 :: opn :: fd.length :: fd) = _
  unfold receive
  simp only [recv_exact_cons, recv_exact_all, varint_decode_single h1, varint_decode_single h2]

theorem lookup_strKey_reverse_none (s : String) :
    List.lookup (PyKey.strKey s) field_names_reverse_mapping = none := by
  have hne : ∀ n : Nat, (PyKey.strKey s == PyKey.intKey n) = false := fun _ => rfl
  simp [field_names_reverse_mapping, List.lookup, hne]

theorem except_bind_ok {A B : Type} (a : A) (f : A → Except PyErr B) :
    (Except.ok a >>= f) = f a := rfl

theorem except_bind_error {A B : Type} (e : PyErr) (f : A → Except PyErr B) :
    ((Except.error e : Except PyErr A) >>= f) = Except.error e := rfl

theorem encode_field_int_or_list {f : String} {v : FieldValue}
    (h : isIntOrList v = true) :
    encode_field f v = Except.error PyErr.keyError := by
  cases v with
  | vint n =>
    simp only [encode_field, pyDictGet, lookup_strKey_reverse_none, except_bind_error]
  | vstr s => simp [isIntOrList] at h
  | vlist items =>
    simp only [encode_field, pyDictGet, lookup_strKey_reverse_none, except_bind_error]

theorem field_names_values_le {k : PyKey} {idx : Nat}
    (h : List.lookup k field_names = some idx) : idx ≤ 15 := by
  simp only [field_names, List.lookup] at h
  repeat' split at h
  all_goals simp_all
  all_goals omega

theorem encode_field_error_eq {f : String} {v : FieldValue} {e : PyErr}
    (h : encode_field f v = Except.error e) : e = PyErr.keyError := by
  cases v with
  | vint n =>
    rw [@encode_field_int_or_list f (FieldValue.vint n) rfl] at h
    exact ((Except.error.injEq _ _).mp h).symm
  | vlist items =>
    rw [@encode_field_int_or_list f (FieldValue.vlist items) rfl] at h
    exact ((Except.error.injEq _ _).mp h).symm
  | vstr s =>
    cases hlook : List.lookup (PyKey.strKey f) field_names with
    | none =>
      have hc : encode_field f (FieldValue.vstr s) = Except.error PyErr.keyError := by
        simp only [encode_field, pyDictGet, hlook, except_bind_error]
      rw [hc] at h
      exact ((Except.error.injEq _ _).mp h).symm
    | some idx =>
      have hle : idx ≤ 15 := field_names_values_le hlook
      have hc : encode_field f (FieldValue.vstr s) =
          Except.ok ([(1 <<< 4) ||| idx] ++ varint_encode s.length ++ s) := by
        simp only [encode_field, pyDictGet, hlook, pack_two_nibbles, except_bind_ok]
        simp [hle]
        rfl
      rw [hc] at h
      exact absurd h (by simp)

theorem encode_fields_keyError (l : List (String × FieldValue))
    (h : ∃ fv ∈ l, isIntOrList fv.2 = true) :
    encode_fields l = Except.error PyErr.keyError := by
  induction l with
  | nil =>
    rcases h with ⟨fv, hm, _⟩
    cases hm
  | cons hd tl ih =>
    obtain ⟨f, v⟩ := hd
    rcases h with ⟨fv, hm, hio⟩
    simp only [encode_fields]
    rcases List.mem_cons.mp hm with heq | hmem
    · subst heq
      rw [encode_field_int_or_list hio, except_bind_error]
    · cases he : encode_field f v with
      | error e =>
        rw [except_bind_error]
        rw [encode_field_error_eq he]
      | ok d =>
        rw [except_bind_ok, ih ⟨fv, hmem, hio⟩, except_bind_error]

theorem lookup_dictSet_self {V : Type} (d : List (String × V)) (k : String) (v : V) :
    List.lookup k (dictSet d k v) = some v := by
  induction d with
  | nil => simp [dictSet, List.lookup]
  | cons kv rest ih =>
    obtain ⟨k', v'⟩ := kv
    by_cases h : k' = k
    · subst h
      simp [dictSet, List.lookup]
    · have hb : (k' == k) = false := by simp [h]
      have hb' : (k == k') = false := by simp [Ne.symm h]
      simp [dictSet, List.lookup, hb, hb', ih]

theorem partition_messages_eq (msgs : List Message) (ids : List String) :
    partition_messages msgs ids =
      ((msgs.filter (fun m => ids.contains m.message_id)).map Message.message_id,
       msgs.filter (fun m => !(ids.contains m.message_id))) := by
  induction msgs with
  | nil => rfl
  | cons m rest ih =>
    by_cases h : m.message_id ∈ ids <;>
      simp [partition_messages, ih, h, List.filter_cons]

theorem pyDictGet_error_eq {V : Type} {d : List (PyKey × V)} {k : PyKey} {e : PyErr}
    (h : pyDictGet d k = Except.error e) : e = PyErr.keyError := by
  unfold pyDictGet at h
  cases hl : List.lookup k d with
  | some v => rw [hl] at h; exact absurd h (by simp)
  | none => rw [hl] at h; exact ((Except.error.injEq _ _).mp h).symm

/-! Claim theorems. -/

/-- C8: for every non-negative integer `n`, `varint_decode (varint_encode n)`
returns the pair `(n, length of the encoding)`; and for every byte sequence
in which every byte has the continuation (high) bit set, `varint_decode`
fails with the incomplete-varint error (`none`). -/
theorem C8_varint_round_trip_and_incomplete :
    (∀ n : Nat, varint_decode (varint_encode n) = some (n, (varint_encode n).length)) ∧
    (∀ data : List Nat, (∀ b ∈ data, b &&& 0x80 ≠ 0) → varint_decode data = none) := by
  constructor
  · exact varint_round
  · intro data h
    exact varint_decode_go_none data 0 0 0 h

/-- Witness for C8 at concrete inputs: 300 round-trips through two bytes, and
the all-continuation sequence `[0x80, 0xFF]` fails to decode. -/
theorem C8_witness :
    varint_decode (varint_encode 300) = some (300, 2) ∧
    varint_decode [0x80, 0xFF] = none := by
  constructor
  · exact C8_varint_round_trip_and_incomplete.1 300
  · exact C8_varint_round_trip_and_incomplete.2 [0x80, 0xFF] (by decide)

/-- C1 (counterexample): the round-trip claim is false — two different login
frames (usernames "aa" and "ab") produce `send` outputs on which `receive`
returns identical results, so decoding cannot return the frame's fields. -/
theorem C1_counterexample :
    Except.map receive (send login_frame_aa) = Except.map receive (send login_frame_ab) ∧
    login_frame_aa ≠ login_frame_ab := by
  exact ⟨rfl, by decide⟩

/-- C1 (amended): decoding the byte string produced by `WireProtocol.send`
yields only the numeric op-code, the declared payload length and the
constant status "received" — the business-payload fields are parsed but
discarded, so the original frame is not recovered.  (Hypotheses: the
op-code is known and its number fits one varint byte, the payload encodes
successfully and is shorter than 128 bytes, and the field data does not
drive the parser loop into its non-terminating state.) -/
theorem C1_amended_receive_discards_fields (m : OutMessage) (opn : Nat) (fd : List Nat)
    (hop : List.lookup (PyKey.strKey m.op_code) op_code_to_number = some opn)
    (hopn : opn < 128)
    (hfd : encode_fields (get_fields m.payload) = Except.ok fd)
    (hlen : fd.length < 128)
    (hparse : parse_fields fd ≠ ParseOutcome.hang) :
    send m = Except.ok ([29] ++ varint_encode opn ++ varint_encode fd.length ++ fd) ∧
    receive ([29] ++ varint_encode opn ++ varint_encode fd.length ++ fd) =
      RecvOutcome.ret { op_code := opn, payload_length := fd.length, status := "received" } := by
  constructor
  · simp only [send, pyDictGet, hop, hfd, except_bind_ok]
  · exact receive_of_frame opn fd hopn hlen hparse

/-- Witness for C1's amended theorem at the concrete login frame with
username "aa" and hashed password "hh". -/
theorem C1_witness :
    send login_frame_aa = Except.ok [29, 2, 8, 16, 2, 97, 97, 17, 2, 104, 104] ∧
    receive [29, 2, 8, 16, 2, 97, 97, 17, 2, 104, 104] =
      RecvOutcome.ret { op_code := 2, payload_length := 8, status := "received" } := by
  exact C1_amended_receive_discards_fields login_frame_aa
    2 [16, 2, 97, 97, 17, 2, 104, 104]
    (by decide) (by decide) rfl (by decide) (by decide)

/-- C2: the claim fails on the code — `receive` hands the dispatcher a
*numeric* op-code while the `if/elif` chain of `client_handler` compares it
against op-code *names* with Python `==` (always false across `int`/`str`),
so every request op-code 0..11 falls through to the "Unknown op_code" error
branch instead of reaching its handler.  Second conjunct: a well-formed
`create_account_username` frame is received as numeric op-code 0. -/
theorem C2_numeric_opcode_falls_through :
    (∀ op : Nat, dispatch_op (PyVal.pint op) = DispatchResult.unknown) ∧
    Except.map receive (send cre_username_frame) =
      Except.ok (RecvOutcome.ret { op_code := 0, payload_length := 5, status := "received" }) := by
  constructor
  · intro op
    rfl
  · rfl

/-- C3: the claim fails on the code — truncating an encoded login frame by
its final byte makes `recv_exact(payload_length)` raise `ConnectionError`,
but `receive` swallows the exception and still returns the partially
populated dictionary with status "received" instead of propagating a
failure to the caller. -/
theorem C3_truncation_returns_normally :
    send login_frame_bob = Except.ok [29, 2, 9, 16, 3, 98, 111, 98, 17, 2, 104, 104] ∧
    receive (List.dropLast [29, 2, 9, 16, 3, 98, 111, 98, 17, 2, 104, 104]) =
      RecvOutcome.ret { op_code := 2, payload_length := 9, status := "received" } := by
  exact ⟨rfl, rfl⟩

/-- C10: `WireProtocol.send` raises `KeyError` — and therefore writes no
bytes, since `sendall` is its final statement — for every message whose
payload contains an integer-valued or list-of-strings-valued field, because
those two branches look up the field's *name* in the int-keyed
`field_names_reverse_mapping`. -/
theorem C10_send_keyError_on_int_or_list (m : OutMessage)
    (h : ∃ fv ∈ get_fields m.payload, isIntOrList fv.2 = true) :
    send m = Except.error PyErr.keyError := by
  unfold send
  cases hop : pyDictGet op_code_to_number (PyKey.strKey m.op_code) with
  | error e =>
    rw [except_bind_error, pyDictGet_error_eq hop]
  | ok opn =>
    rw [except_bind_ok]
    simp only [encode_fields_keyError (get_fields m.payload) h, except_bind_error]

/-- Witness for C10: an `ok` response whose payload carries the integer field
`unread_count` makes `send` fail with `KeyError`. -/
theorem C10_witness :
    send ok_unread_frame = Except.error PyErr.keyError := by
  exact C10_send_keyError_on_int_or_list ok_unread_frame
    ⟨("unread_count", FieldValue.vint 3), by decide, rfl⟩

/-- C4 (counterexample): the two login-failure responses are *not* identical —
with Alice's account stored, a wrong password for "alice" and a login for
the unknown "carol" produce different response frames (different `message`
payloads), so the client can distinguish the two cases. -/
theorem C4_counterexample :
    (handle_login st_alice 0 "alice" "bad").2 ≠ (handle_login st_alice 0 "carol" "x").2 := by
  decide

/-- C4 (amended): a wrong password on an existing account and a login with an
unknown username both yield a single `error` response (op-code 13 on the
wire), but with different human-readable messages ("Incorrect password."
versus "Username does not exist."), so the two cases are distinguishable
to the client. -/
theorem C4_amended_login_errors_distinguishable (st : ServerState) (conn : Nat)
    (u p v q : String) (r : UserRecord)
    (hu : List.lookup u st.user_db = some r)
    (hp : r.hashed_password ≠ hash_password u p)
    (hv : List.lookup v st.user_db = none) :
    handle_login st conn u p = (st, [(conn, send_error_resp "Incorrect password.")]) ∧
    handle_login st conn v q = (st, [(conn, send_error_resp "Username does not exist.")]) ∧
    List.lookup (PyKey.strKey "error") op_code_to_number = some 13 ∧
    (handle_login st conn u p).2 ≠ (handle_login st conn v q).2 := by
  have hb : (r.hashed_password == hash_password u p) = false := by
    simp [hp]
  have h1 : handle_login st conn u p = (st, [(conn, send_error_resp "Incorrect password.")]) := by
    simp [handle_login, hu, hb]
  have h2 : handle_login st conn v q = (st, [(conn, send_error_resp "Username does not exist.")]) := by
    simp [handle_login, hv]
  refine ⟨h1, h2, by decide, ?_⟩
  rw [h1, h2]
  simp [send_error_resp]

/-- Witness for C4's amended theorem: Alice exists with password "pw"; a login
as Alice with "bad" and a login as the unknown "carol" produce the two
distinct error responses. -/
theorem C4_witness :
    handle_login st_alice 0 "alice" "bad" =
      (st_alice, [(0, send_error_resp "Incorrect password.")]) ∧
    handle_login st_alice 0 "carol" "x" =
      (st_alice, [(0, send_error_resp "Username does not exist.")]) := by
  have h := C4_amended_login_errors_distinguishable st_alice 0 "alice" "bad" "carol" "x"
    alice_offline_record rfl (by decide) rfl
  exact ⟨h.1, h.2.1⟩

/-- C5 (counterexample): starting from a state without "bob", two consecutive
`create_account_username("bob")` calls return `ok` *twice* — the second
response is `ok`, not the `exists` response the claim predicts, because
phase 1 never mutates the state. -/
theorem C5_counterexample :
    (handle_account_creation_username
      (handle_account_creation_username st_empty 0 "bob").1 0 "bob").2 =
      [(0, ok_msg_resp "Username available for creation.")] ∧
    (handle_account_creation_username
      (handle_account_creation_username st_empty 0 "bob").1 0 "bob").2 ≠
      [(0, { op_code := "exists",
             payload := [("message",
               RespVal.rstr "Username already exists. Please provide password.")] })] := by
  exact ⟨rfl, by decide⟩

/-- C5 (amended): from a state where `u` does not exist,
`create_account_username(u)` returns `ok` and, called twice with no
intervening operation, returns `ok` *both* times (phase 1 never mutates);
`create_account_password(u, p)` issued after them succeeds with `ok`,
creating the offline record; repeating `create_account_password(u, ...)`
thereafter fails with the username-taken `error` response. -/
theorem C5_amended_two_phase_creation (st : ServerState) (conn : Nat)
    (u p p2 : String) (hu : List.lookup u st.user_db = none) :
    handle_account_creation_username st conn u =
      (st, [(conn, ok_msg_resp "Username available for creation.")]) ∧
    handle_account_creation_username
      (handle_account_creation_username st conn u).1 conn u =
      (st, [(conn, ok_msg_resp "Username available for creation.")]) ∧
    handle_account_creation_password
      (handle_account_creation_username st conn u).1 conn u p =
      ({ st with user_db := dictSet st.user_db u (created_record u p) },
       [(conn, ok_msg_resp "Account created successfully.")]) ∧
    handle_account_creation_password
      { st with user_db := dictSet st.user_db u (created_record u p) } conn u p2 =
      ({ st with user_db := dictSet st.user_db u (created_record u p) },
       [(conn, send_error_resp "Account creation failed. Username already in use.")]) := by
  have h1 : handle_account_creation_username st conn u =
      (st, [(conn, ok_msg_resp "Username available for creation.")]) := by
    simp [handle_account_creation_username, hu]
  refine ⟨h1, ?_, ?_, ?_⟩
  · rw [h1]
    exact h1
  · rw [h1]
    simp [handle_account_creation_password, created_record, hu]
  · simp [handle_account_creation_password, lookup_dictSet_self]

/-- Witness for C5's amended theorem: the whole two-phase scenario for "bob"
starting from the empty state. -/
theorem C5_witness :
    handle_account_creation_username st_empty 0 "bob" =
      (st_empty, [(0, ok_msg_resp "Username available for creation.")]) ∧
    handle_account_creation_username
      (handle_account_creation_username st_empty 0 "bob").1 0 "bob" =
      (st_empty, [(0, ok_msg_resp "Username available for creation.")]) ∧
    handle_account_creation_password
      (handle_account_creation_username st_empty 0 "bob").1 0 "bob" "p" =
      ({ st_empty with user_db := dictSet st_empty.user_db "bob" (created_record "bob" "p") },
       [(0, ok_msg_resp "Account created successfully.")]) ∧
    handle_account_creation_password
      { st_empty with user_db := dictSet st_empty.user_db "bob" (created_record "bob" "p") } 0 "bob" "q" =
      ({ st_empty with user_db := dictSet st_empty.user_db "bob" (created_record "bob" "p") },
       [(0, send_error_resp "Account creation failed. Username already in use.")]) := by
  exact C5_amended_two_phase_creation st_empty 0 "bob" "p" "q" rfl

/-- C6: for every `send_message` whose sender exists with session status
"online" and whose recipient exists, exactly one new message is appended to
the recipient's mailbox, with `read = false` when the recipient is offline
and `read = true` when the recipient is online; a `refresh_request` push is
written to the recipient's registered connection if and only if the
recipient is online and present in `active_connections`; and the sender
always receives the `ok` acknowledgment. -/
theorem C6_send_message_spec (st : ServerState) (conn : Nat)
    (sender recipient text uuid ts : String) (sr rr : UserRecord)
    (hs : List.lookup sender st.user_db = some sr)
    (hso : sr.session_status = "online")
    (hr : List.lookup recipient st.user_db = some rr) :
    handle_send_message st conn sender recipient text uuid ts =
      ({ st with
           user_db := dictSet st.user_db recipient
             { rr with
                 messages := rr.messages ++
                   [delivered_message sender recipient text uuid ts
                     (rr.session_status == "online")] } },
       (conn, ok_send_ack uuid) ::
         (if rr.session_status == "online" then
            match List.lookup recipient st.active_connections with
            | some w => [(w, refresh_resp)]
            | none => []
          else [])) := by
  simp only [handle_send_message, hs, hr, hso, bne_self_eq_false, Bool.false_eq_true,
    if_false, create_message_object, lookup_dictSet_self, delivered_message,
    ok_send_ack, refresh_resp]
  cases hon : (rr.session_status == "online") with
  | true => simp [hon]
  | false => simp [hon]

/-- Witness for C6: Alice (online, connection 3) sends "hi" to the offline
Bob — the message lands unread in Bob's mailbox, no push happens, and
Alice gets the acknowledgment. -/
theorem C6_witness :
    handle_send_message st_two_users 3 "alice" "bob" "hi" "m1" "t0" =
      ({ st_two_users with
           user_db := dictSet st_two_users.user_db "bob"
             { bob_offline_record with
                 messages := bob_offline_record.messages ++
                   [delivered_message "alice" "bob" "hi" "m1" "t0"
                     (bob_offline_record.session_status == "online")] } },
       [(3, ok_send_ack "m1")]) := by
  exact C6_send_message_spec st_two_users 3 "alice" "bob" "hi" "m1" "t0"
    alice_online_record bob_offline_record rfl rfl rfl

/-- C7 (counterexample): the claim is false on the code — deleting the
existing, online account "bob" leaves Bob's `active_connections` entry
(connection 7) in place, although the claim says the SessionRegistry entry
is removed whenever one is present. -/
theorem C7_counterexample :
    List.lookup "bob" ((handle_delete_account st_bob_conn 0 "bob").1).active_connections =
      some 7 := by
  decide

/-- C7 (amended): `delete_account(u)` for an existing `u` removes `u`'s
`user_db` record (and with it the mailbox) and returns `ok`, but leaves any
`active_connections` entry untouched; for an absent `u` it fails with the
user-not-found `error` response and changes nothing. -/
theorem C7_amended_delete_account_spec (st : ServerState) (conn : Nat) (u : String) :
    ((List.lookup u st.user_db).isSome = true →
      handle_delete_account st conn u =
        ({ st with user_db := dictDel st.user_db u },
         [(conn, ok_msg_resp ("Account \x27" ++ u ++ "\x27 deleted successfully."))])) ∧
    (List.lookup u st.user_db = none →
      handle_delete_account st conn u =
        (st, [(conn, send_error_resp "User account not found.")])) := by
  constructor
  · intro h
    simp [handle_delete_account, h]
  · intro h
    simp [handle_delete_account, h]

/-- Witness for C7's amended theorem: deleting "bob" in `st_bob_conn` removes
the user record, keeps the `active_connections` entry and acknowledges. -/
theorem C7_witness :
    handle_delete_account st_bob_conn 0 "bob" =
      ({ st_bob_conn with user_db := dictDel st_bob_conn.user_db "bob" },
       [(0, ok_msg_resp "Account \x27bob\x27 deleted successfully.")]) := by
  exact (C7_amended_delete_account_spec st_bob_conn 0 "bob").1 (by decide)

/-- C9: for every existing, online user and every id list, `delete_messages`
removes exactly the mailbox messages whose `message_id` occurs in the list
and returns `ok` with exactly the ids actually removed (in mailbox order);
when no listed id occurs in the mailbox, the mailbox is unchanged and the
response is `ok` with an empty deleted-list, not an error. -/
theorem C9_delete_messages_spec (st : ServerState) (conn : Nat)
    (u : String) (ids : List String) (r : UserRecord)
    (hu : List.lookup u st.user_db = some r)
    (ho : r.session_status = "online") :
    handle_delete_messages st conn u ids =
      ({ st with
           user_db := dictSet st.user_db u
             { r with
                 messages := r.messages.filter
                   (fun m => !(ids.contains m.message_id)) } },
       [(conn, ok_deleted_resp
          ((r.messages.filter (fun m => ids.contains m.message_id)).map Message.message_id))]) ∧
    ((∀ m ∈ r.messages, ids.contains m.message_id = false) →
      (r.messages.filter (fun m => !(ids.contains m.message_id)) = r.messages ∧
        (r.messages.filter (fun m => ids.contains m.message_id)).map Message.message_id = [])) := by
  constructor
  · simp only [handle_delete_messages, hu, ho, bne_self_eq_false, Bool.false_eq_true,
      if_false, partition_messages_eq, ok_deleted_resp]
  · intro hnone
    have hfilter : r.messages.filter (fun m => !(ids.contains m.message_id)) = r.messages := by
      apply List.filter_eq_self.mpr
      intro m hm
      simpa using hnone m hm
    have hnil : r.messages.filter (fun m => ids.contains m.message_id) = [] := by
      apply List.filter_eq_nil_iff.mpr
      intro m hm
      simpa using hnone m hm
    rw [hfilter, hnil]
    exact ⟨rfl, rfl⟩

/-- Witness for C9: deleting the absent id "zzz" from Bob's mailbox leaves the
mailbox unchanged and answers `ok` with an empty deleted-list. -/
theorem C9_witness :
    handle_delete_messages st_bob_mailbox 0 "bob" ["zzz"] =
      ({ st_bob_mailbox with
           user_db := dictSet st_bob_mailbox.user_db "bob"
             { bob_mailbox_record with
                 messages := bob_mailbox_record.messages.filter
                   (fun m => !((["zzz"] : List String).contains m.message_id)) } },
       [(0, ok_deleted_resp [])]) ∧
    bob_mailbox_record.messages.filter
      (fun m => !((["zzz"] : List String).contains m.message_id)) =
      bob_mailbox_record.messages := by
  have h := C9_delete_messages_spec st_bob_mailbox 0 "bob" ["zzz"]
    bob_mailbox_record rfl rfl
  exact ⟨h.1, (h.2 (by decide)).1⟩

end Chat
